import Mathlib

/-!
Verification of the batch TFLite-to-ONNX conversion script
(`src/models/gesture_model/tflite_to_onnx.py`).

The script is embedded shallowly:

* Paths (`pathlib.PurePosixPath`, restricted to the relative, dot-free
  shapes the script constructs) are lists of components.  `suffix`,
  `stem` and `with_suffix` follow the CPython 3.11 implementation
  (`rfind('.')` with the `0 < i < len(name) - 1` guard).
* Directory discovery (`source_dir.glob("*.tflite")`) is abstracted by a
  `sourceListing : Option (List String)`: `none` models a source
  directory that is absent or unreadable (in CPython 3.11,
  `_Selector.select_from` returns an empty iterator when the parent is
  not a directory, and `_WildcardSelector._select_from` swallows
  `PermissionError`), `some entries` models the `scandir` order of an
  existing directory.  The pattern `*.tflite` compiles, via
  `fnmatch.translate`, to the full-match regex `(?s:.*\.tflite)\Z`,
  i.e. "name ends with `.tflite`" (pathlib's glob does not special-case
  hidden files in 3.11).
* `subprocess.run(cmd, capture_output=True, text=True)` is a function
  `List String → Except String ProcResult`; `Except.error` models an
  `OSError` raised by the launch itself (which the script does not
  catch), `Except.ok` a completed process with its exit code, captured
  stdout and captured stderr.
* The observable behaviour of a run is a trace of events (`print` calls
  and subprocess invocations) paired with an optional uncaught
  exception.
-/

namespace Tf2Onnx

/-- Result of a completed `subprocess.run(..., capture_output=True, text=True)`:
exit code plus captured stdout and stderr text. -/
structure ProcResult where
  returncode : Int
  stdout : String
  stderr : String
deriving DecidableEq, Repr

/-- An observable step of the script: a `print` call or a subprocess
invocation with its full argument vector. -/
inductive Event where
  | print (line : String)
  | subprocessCall (cmd : List String)
deriving DecidableEq, Repr

/-- A relative POSIX path as its list of components (the script only ever
builds relative paths with plain-name components). -/
structure PurePath where
  parts : List String
deriving DecidableEq, Repr

/-- CPython `PurePath.name`: the final component, `""` for an empty path. -/
def PurePath.name (p : PurePath) : String :=
  (p.parts.getLast?).getD ""

/-- Joining `p / n` for a plain filename `n`. -/
def PurePath.child (p : PurePath) (n : String) : PurePath :=
  ⟨p.parts ++ [n]⟩

/-- Index of the last `'.'` in a character list (Python `str.rfind('.')`,
with `none` for "not found"). -/
def rfindDot : List Char → Option Nat
  | [] => none
  | c :: cs =>
    match rfindDot cs with
    | some i => some (i + 1)
    | none => if c = '.' then some 0 else none

/-- CPython `PurePath.suffix` on a file name: `name[i:]` when
`i = name.rfind('.')` satisfies `0 < i < len(name) - 1`, else `""`. -/
def pySuffix (name : String) : String :=
  match rfindDot name.data with
  | some i => if 0 < i ∧ i + 1 < name.data.length then ⟨name.data.drop i⟩ else ""
  | none => ""

/-- CPython `PurePath.stem` on a file name: `name[:i]` under the same
guard as `pySuffix`, else the whole name. -/
def pyStem (name : String) : String :=
  match rfindDot name.data with
  | some i => if 0 < i ∧ i + 1 < name.data.length then ⟨name.data.take i⟩ else name
  | none => name

/-- CPython `PurePath.with_suffix` on a file name: drop the old suffix
(if any) and append the new one. -/
def pyWithSuffixName (name newSuffix : String) : String :=
  if pySuffix name = "" then name ++ newSuffix
  else ⟨name.data.take (name.data.length - (pySuffix name).data.length)⟩ ++ newSuffix

/-- CPython `PurePath.with_suffix`: replace the suffix of the final component. -/
def PurePath.withSuffix (p : PurePath) (newSuffix : String) : PurePath :=
  ⟨p.parts.dropLast ++ [pyWithSuffixName p.name newSuffix]⟩

/-- CPython `str(p)`: components joined by `/`, and `"."` for the empty path
(CPython collapses `Path(".")` to zero parts). -/
def pathStr (p : PurePath) : String :=
  if p.parts.isEmpty then "." else String.intercalate "/" p.parts

/-- CPython `str(p.absolute())` for a relative `p`, given the invocation
directory `cwd` (no trailing slash). -/
def absoluteStr (cwd : String) (p : PurePath) : String :=
  if p.parts.isEmpty then cwd else cwd ++ "/" ++ String.intercalate "/" p.parts

/-- The source directory `pathlib.Path("./tflite")` (normalized to one part). -/
def sourceDir : PurePath := ⟨["tflite"]⟩

/-- The output directory `pathlib.Path(".")` (normalized to zero parts). -/
def outputDir : PurePath := ⟨[]⟩

/-- Matching `*.tflite` under pathlib 3.11 glob semantics: `fnmatch.translate`
turns the pattern into the full-match regex `(?s:.*\.tflite)\Z`, so an
entry name matches exactly when its character sequence ends with
`.tflite`. -/
def matchesGlobTflite (name : String) : Bool :=
  ".tflite".data.isSuffixOf name.data

/-- Discovery `list(source_dir.glob("*.tflite"))`: filter the directory listing by
the pattern and prepend the source directory; `none` (absent or
unreadable directory) yields no matches, exactly as pathlib does. -/
def globTflite (listing : Option (List String)) : List PurePath :=
  match listing with
  | none => []
  | some entries => (entries.filter matchesGlobTflite).map sourceDir.child

/-- The target `onnx_file = output_dir / tflite_file.with_suffix(".onnx").name`. -/
def onnxFileFor (f : PurePath) : PurePath :=
  outputDir.child ((f.withSuffix ".onnx").name)

/-- The argument vector built for one file:
`[sys.executable, "-m", "tf2onnx.convert", "--tflite", str(tflite_file),
"--output", str(onnx_file), "--opset", "13"]`. -/
def mkCmd (sysExecutable : String) (f : PurePath) : List String :=
  [sysExecutable, "-m", "tf2onnx.convert",
   "--tflite", pathStr f,
   "--output", pathStr (onnxFileFor f),
   "--opset", "13"]

/-- The progress notice `print` of converting source name to target name. -/
def convertingNotice (f : PurePath) : Event :=
  .print ("Converting " ++ f.name ++ " -> " ++ (onnxFileFor f).name ++ "...")

/-- The branch on `result.returncode`: the success notice with the
absolute target path, or the error notice naming the source file
followed by `print(result.stderr)`. -/
def reportEvents (cwd : String) (f : PurePath) (r : ProcResult) : List Event :=
  if r.returncode = 0 then
    [.print ("Successfully converted to " ++ absoluteStr cwd (onnxFileFor f))]
  else
    [.print ("Error converting " ++ f.name ++ ":"), .print r.stderr]

/-- The environment a run observes: `sys.executable`, the invocation
directory, the source-directory listing, and the subprocess runner. -/
structure Env where
  sysExecutable : String
  cwd : String
  sourceListing : Option (List String)
  run : List String → Except String ProcResult

/-- The `for tflite_file in tflite_files:` loop.  Each iteration prints
the progress notice, invokes the subprocess, and reports by exit code;
a raised `OSError` (the `Except.error` case) is uncaught and ends the
run with that exception. -/
def convertLoop (sysExecutable cwd : String)
    (run : List String → Except String ProcResult) :
    List PurePath → List Event × Option String
  | [] => ([], none)
  | f :: fs =>
    let cmd := mkCmd sysExecutable f
    match run cmd with
    | .error e => ([convertingNotice f, .subprocessCall cmd], some e)
    | .ok r =>
      let rest := convertLoop sysExecutable cwd run fs
      (convertingNotice f :: .subprocessCall cmd :: (reportEvents cwd f r ++ rest.1),
       rest.2)

/-- The script entry `bulk_convert_tf2onnx()`: discover `*.tflite` files, and either print
the "No .tflite files found" message and return, or run the conversion
loop.  The result is the event trace plus an uncaught exception, if any. -/
def bulk_convert_tf2onnx (env : Env) : List Event × Option String :=
  let tflite_files := globTflite env.sourceListing
  if tflite_files.isEmpty then
    ([.print ("No .tflite files found in " ++ absoluteStr env.cwd sourceDir)], none)
  else
    convertLoop env.sysExecutable env.cwd env.run tflite_files

/-- The subprocess argument vectors occurring in a trace, in order. -/
def eventCmds (es : List Event) : List (List String) :=
  es.filterMap fun e =>
    match e with
    | .subprocessCall c => some c
    | .print _ => none

/-! ## Helper lemmas -/

theorem rfindDot_lt_length {cs : List Char} {i : Nat} (h : rfindDot cs = some i) :
    i < cs.length := by
  induction cs generalizing i with
  | nil => simp [rfindDot] at h
  | cons c cs ih =>
    rw [rfindDot] at h
    cases hr : rfindDot cs with
    | some j =>
      rw [hr] at h
      simp only [Option.some.injEq] at h
      have hj := ih hr
      simp only [List.length_cons]
      omega
    | none =>
      rw [hr] at h
      by_cases hc : c = '.'
      · rw [if_pos hc] at h
        simp only [Option.some.injEq] at h
        simp only [List.length_cons]
        omega
      · rw [if_neg hc] at h
        exact absurd h (by simp)

/-- CPython's `with_suffix` computes exactly `stem + new_suffix`. -/
theorem pyWithSuffixName_eq (name s : String) :
    pyWithSuffixName name s = pyStem name ++ s := by
  unfold pyWithSuffixName pySuffix pyStem
  cases hr : rfindDot name.data with
  | none => simp
  | some i =>
    simp only
    by_cases hcond : 0 < i ∧ i + 1 < name.data.length
    · simp only [if_pos hcond]
      have hi : i < name.data.length := rfindDot_lt_length hr
      have hne : (⟨name.data.drop i⟩ : String) ≠ "" := by
        intro hemp
        have hd : name.data.drop i = [] := congrArg String.data hemp
        have hl := congrArg List.length hd
        simp only [List.length_drop, List.length_nil] at hl
        omega
      rw [if_neg hne]
      have hlen : name.data.length - (name.data.drop i).length = i := by
        rw [List.length_drop]
        omega
      show (⟨name.data.take (name.data.length - (name.data.drop i).length)⟩ : String) ++ s = _
      rw [hlen]
    · simp only [if_neg hcond]
      simp

theorem eventCmds_nil : eventCmds [] = [] := rfl

theorem eventCmds_cons_print (s : String) (es : List Event) :
    eventCmds (.print s :: es) = eventCmds es := rfl

theorem eventCmds_cons_call (c : List String) (es : List Event) :
    eventCmds (.subprocessCall c :: es) = c :: eventCmds es := rfl

theorem eventCmds_cons_conv (f : PurePath) (es : List Event) :
    eventCmds (convertingNotice f :: es) = eventCmds es := rfl

theorem eventCmds_append (es fs : List Event) :
    eventCmds (es ++ fs) = eventCmds es ++ eventCmds fs :=
  List.filterMap_append es fs _

/-- The exit-code branch only prints; it launches no subprocess. -/
theorem eventCmds_reportEvents (cwd : String) (f : PurePath) (r : ProcResult) :
    eventCmds (reportEvents cwd f r) = [] := by
  unfold reportEvents
  split <;> rfl

/-- When every invocation completes (the launch never raises), the loop
performs exactly one subprocess invocation per file, in list order. -/
theorem eventCmds_convertLoop (exe cwd : String)
    (run : List String → Except String ProcResult)
    (hok : ∀ c, ∃ r, run c = .ok r) :
    ∀ fs : List PurePath,
      eventCmds (convertLoop exe cwd run fs).1 = fs.map (mkCmd exe) := by
  intro fs
  induction fs with
  | nil => rfl
  | cons f fs ih =>
    obtain ⟨r, hr⟩ := hok (mkCmd exe f)
    simp only [convertLoop, hr, List.map_cons]
    rw [eventCmds_cons_conv, eventCmds_cons_call, eventCmds_append,
      eventCmds_reportEvents, ih]
    simp

theorem subprocessCall_mem_of_mem_eventCmds {c : List String} :
    ∀ {es : List Event}, c ∈ eventCmds es → Event.subprocessCall c ∈ es := by
  intro es
  induction es with
  | nil =>
    intro h
    simp [eventCmds] at h
  | cons e es ih =>
    intro h
    cases e with
    | print s =>
      rw [eventCmds_cons_print] at h
      exact List.mem_cons_of_mem _ (ih h)
    | subprocessCall d =>
      rw [eventCmds_cons_call] at h
      rcases List.mem_cons.mp h with h | h
      · rw [h]
        exact List.mem_cons_self _ _
      · exact List.mem_cons_of_mem _ (ih h)

/-! ## Claim theorems -/

/-- When every launch completes, a run's subprocess invocations are
exactly one per matched file, in discovery order. -/
theorem eventCmds_bulk (env : Env)
    (hok : ∀ c, ∃ r, env.run c = .ok r) :
    eventCmds (bulk_convert_tf2onnx env).1
      = (globTflite env.sourceListing).map (mkCmd env.sysExecutable) := by
  unfold bulk_convert_tf2onnx
  by_cases h : (globTflite env.sourceListing).isEmpty = true
  · rw [if_pos h]
    have hnil : globTflite env.sourceListing = [] := List.isEmpty_iff.mp h
    rw [hnil]
    rfl
  · rw [if_neg h]
    exact eventCmds_convertLoop env.sysExecutable env.cwd env.run hok _

/-- Claim C1: for every list of files matched by the glob pattern in the
source directory, the batch run performs exactly one subprocess
invocation per matched file, in discovery order; in particular the
number of invocations equals the number of matched files — no file is
duplicated or skipped.  (The hypothesis says every launch completes,
i.e. `subprocess.run` never raises.) -/
theorem one_invocation_per_matched_file (env : Env)
    (hok : ∀ c, ∃ r, env.run c = .ok r) :
    eventCmds (bulk_convert_tf2onnx env).1
        = (globTflite env.sourceListing).map (mkCmd env.sysExecutable)
      ∧ (eventCmds (bulk_convert_tf2onnx env).1).length
        = (globTflite env.sourceListing).length := by
  have h := eventCmds_bulk env hok
  exact ⟨h, by rw [h, List.length_map]⟩

/-- A runner that always reports success with empty captured output. -/
def okRunner : List String → Except String ProcResult :=
  fun _ => .ok ⟨0, "", ""⟩

/-- A concrete environment: two matching entries among three. -/
def envC1 : Env :=
  ⟨"/usr/bin/python3", "/work", some ["a.tflite", "notes.txt", "b.tflite"], okRunner⟩

theorem one_invocation_per_matched_file_witness :
    eventCmds (bulk_convert_tf2onnx envC1).1
        = (globTflite envC1.sourceListing).map (mkCmd envC1.sysExecutable)
      ∧ (eventCmds (bulk_convert_tf2onnx envC1).1).length
        = (globTflite envC1.sourceListing).length
      ∧ eventCmds (bulk_convert_tf2onnx envC1).1
        = [mkCmd "/usr/bin/python3" ⟨["tflite", "a.tflite"]⟩,
           mkCmd "/usr/bin/python3" ⟨["tflite", "b.tflite"]⟩] := by
  have h := one_invocation_per_matched_file envC1 (fun _ => ⟨⟨0, "", ""⟩, rfl⟩)
  exact ⟨h.1, h.2, by decide⟩

theorem PurePath.name_child (p : PurePath) (n : String) : (p.child n).name = n := by
  unfold PurePath.child PurePath.name
  simp [List.getLast?_concat]

/-- The trace of a loop over a single file whose invocation completes:
progress notice, the invocation, then the exit-code report. -/
theorem convertLoop_singleton (exe cwd : String)
    (run : List String → Except String ProcResult) (f : PurePath) (r : ProcResult)
    (hr : run (mkCmd exe f) = .ok r) :
    convertLoop exe cwd run [f]
      = (convertingNotice f :: .subprocessCall (mkCmd exe f) :: reportEvents cwd f r,
         none) := by
  simp only [convertLoop, hr]
  simp

/-- A run whose listing holds exactly one matching entry. -/
theorem bulk_singleton (env : Env) (name : String) (r : ProcResult)
    (hl : env.sourceListing = some [name])
    (hm : matchesGlobTflite name = true)
    (hr : env.run (mkCmd env.sysExecutable (sourceDir.child name)) = .ok r) :
    bulk_convert_tf2onnx env
      = (convertingNotice (sourceDir.child name)
          :: .subprocessCall (mkCmd env.sysExecutable (sourceDir.child name))
          :: reportEvents env.cwd (sourceDir.child name) r,
         none) := by
  unfold bulk_convert_tf2onnx
  rw [hl]
  have hg : globTflite (some [name]) = [sourceDir.child name] := by
    unfold globTflite
    simp [List.filter_cons, hm]
  rw [hg, if_neg (by simp)]
  exact convertLoop_singleton _ _ _ _ _ hr

/-- Claim C2: for every matched source file, the derived target path
equals the output directory joined with the source file's stem plus the
`.onnx` extension, whatever the subdirectory depth of the source; the
target path retains no directory component of the source path (its only
component is the new filename). -/
theorem target_is_stem_plus_onnx (dirs : List String) (name : String)
    (hmatch : matchesGlobTflite name = true) :
    onnxFileFor ⟨dirs ++ [name]⟩ = outputDir.child (pyStem name ++ ".onnx") := by
  unfold onnxFileFor PurePath.withSuffix PurePath.child PurePath.name
  simp [List.getLast?_concat, pyWithSuffixName_eq]

theorem target_is_stem_plus_onnx_witness :
    onnxFileFor ⟨["tflite", "deep"] ++ ["gesture.v2.tflite"]⟩
        = outputDir.child (pyStem "gesture.v2.tflite" ++ ".onnx")
      ∧ outputDir.child (pyStem "gesture.v2.tflite" ++ ".onnx")
        = ⟨["gesture.v2.onnx"]⟩ :=
  ⟨target_is_stem_plus_onnx ["tflite", "deep"] "gesture.v2.tflite" (by decide),
   by decide⟩

/-- Claim C3: the subprocess exit code of zero is the sole success
signal: with exit code zero the trace ends in the success notice naming
the absolute target path; with a non-zero exit code it ends in the
error notice naming the source file followed by the captured stderr,
verbatim. -/
theorem exit_code_decides_outcome (env : Env) (name : String) (r : ProcResult)
    (hl : env.sourceListing = some [name])
    (hm : matchesGlobTflite name = true)
    (hr : env.run (mkCmd env.sysExecutable (sourceDir.child name)) = .ok r) :
    (r.returncode = 0 →
      (bulk_convert_tf2onnx env).1
        = [convertingNotice (sourceDir.child name),
           .subprocessCall (mkCmd env.sysExecutable (sourceDir.child name)),
           .print ("Successfully converted to "
             ++ absoluteStr env.cwd (onnxFileFor (sourceDir.child name)))])
    ∧ (r.returncode ≠ 0 →
      (bulk_convert_tf2onnx env).1
        = [convertingNotice (sourceDir.child name),
           .subprocessCall (mkCmd env.sysExecutable (sourceDir.child name)),
           .print ("Error converting " ++ name ++ ":"),
           .print r.stderr]) := by
  have hb := bulk_singleton env name r hl hm hr
  constructor
  · intro h0
    rw [hb]
    simp only [reportEvents, if_pos h0]
  · intro hne
    rw [hb]
    simp only [reportEvents, if_neg hne, PurePath.name_child]

/-- A concrete single-file environment whose conversion succeeds. -/
def envC3 : Env :=
  ⟨"/usr/bin/python3", "/work", some ["gesture.tflite"], okRunner⟩

theorem exit_code_decides_outcome_witness :
    (bulk_convert_tf2onnx envC3).1
      = [.print "Converting gesture.tflite -> gesture.onnx...",
         .subprocessCall ["/usr/bin/python3", "-m", "tf2onnx.convert",
           "--tflite", "tflite/gesture.tflite",
           "--output", "gesture.onnx", "--opset", "13"],
         .print "Successfully converted to /work/gesture.onnx"] :=
  (((exit_code_decides_outcome envC3 "gesture.tflite" ⟨0, "", ""⟩ rfl (by decide)
      rfl).1) rfl).trans (by decide)

/-- Claim C4: a non-zero exit code for one job does not halt, skip, or
retry any other job: with matched inputs `[a, b, c]` where only `b`'s
conversion fails, jobs `a` and `c` are still attempted and report
success, `b` reports the failure, and the run ends normally. -/
theorem failure_does_not_halt (env : Env) (a b c : String)
    (ra rb rc : ProcResult)
    (hl : env.sourceListing = some [a, b, c])
    (hma : matchesGlobTflite a = true)
    (hmb : matchesGlobTflite b = true)
    (hmc : matchesGlobTflite c = true)
    (hra : env.run (mkCmd env.sysExecutable (sourceDir.child a)) = .ok ra)
    (hrb : env.run (mkCmd env.sysExecutable (sourceDir.child b)) = .ok rb)
    (hrc : env.run (mkCmd env.sysExecutable (sourceDir.child c)) = .ok rc)
    (ha0 : ra.returncode = 0)
    (hb0 : rb.returncode ≠ 0)
    (hc0 : rc.returncode = 0) :
    bulk_convert_tf2onnx env
      = ([convertingNotice (sourceDir.child a),
          .subprocessCall (mkCmd env.sysExecutable (sourceDir.child a)),
          .print ("Successfully converted to "
            ++ absoluteStr env.cwd (onnxFileFor (sourceDir.child a))),
          convertingNotice (sourceDir.child b),
          .subprocessCall (mkCmd env.sysExecutable (sourceDir.child b)),
          .print ("Error converting " ++ b ++ ":"),
          .print rb.stderr,
          convertingNotice (sourceDir.child c),
          .subprocessCall (mkCmd env.sysExecutable (sourceDir.child c)),
          .print ("Successfully converted to "
            ++ absoluteStr env.cwd (onnxFileFor (sourceDir.child c)))],
         none) := by
  unfold bulk_convert_tf2onnx
  rw [hl]
  have hg : globTflite (some [a, b, c])
      = [sourceDir.child a, sourceDir.child b, sourceDir.child c] := by
    unfold globTflite
    simp [List.filter_cons, hma, hmb, hmc]
  rw [hg, if_neg (by simp)]
  simp only [convertLoop, hra, hrb, hrc]
  simp only [reportEvents, if_pos ha0, if_neg hb0, if_pos hc0, PurePath.name_child]
  simp

/-- A three-file environment whose runner fails exactly on the middle
file (it inspects the `--tflite` argument of the command). -/
def envC4 : Env :=
  ⟨"py", "/w", some ["a.tflite", "b.tflite", "c.tflite"],
   fun cmd => if cmd.get? 4 = some "tflite/b.tflite"
              then .ok ⟨1, "", "conversion failed"⟩ else .ok ⟨0, "", ""⟩⟩

theorem failure_does_not_halt_witness :
    bulk_convert_tf2onnx envC4
      = ([.print "Converting a.tflite -> a.onnx...",
          .subprocessCall ["py", "-m", "tf2onnx.convert", "--tflite",
            "tflite/a.tflite", "--output", "a.onnx", "--opset", "13"],
          .print "Successfully converted to /w/a.onnx",
          .print "Converting b.tflite -> b.onnx...",
          .subprocessCall ["py", "-m", "tf2onnx.convert", "--tflite",
            "tflite/b.tflite", "--output", "b.onnx", "--opset", "13"],
          .print "Error converting b.tflite:",
          .print "conversion failed",
          .print "Converting c.tflite -> c.onnx...",
          .subprocessCall ["py", "-m", "tf2onnx.convert", "--tflite",
            "tflite/c.tflite", "--output", "c.onnx", "--opset", "13"],
          .print "Successfully converted to /w/c.onnx"],
         none) :=
  (failure_does_not_halt envC4 "a.tflite" "b.tflite" "c.tflite"
    ⟨0, "", ""⟩ ⟨1, "", "conversion failed"⟩ ⟨0, "", ""⟩
    rfl (by decide) (by decide) (by decide)
    rfl rfl rfl
    rfl (by decide) rfl).trans (by decide)

/-- Claim C5 counterexample: the code signals no error and does not
abort when the source directory is missing.  With no listing, the run
returns normally (no uncaught exception), emits only the informational
"No .tflite files found" line with no subprocess invocation, and its
outcome is identical to that of a run over an existing-but-empty source
directory — so no `DiscoveryError` distinct from the normal empty case
is ever signalled. -/
theorem missing_dir_no_discovery_error :
    bulk_convert_tf2onnx ⟨"py", "/repo", none, okRunner⟩
        = ([.print "No .tflite files found in /repo/tflite"], none)
      ∧ bulk_convert_tf2onnx ⟨"py", "/repo", none, okRunner⟩
        = bulk_convert_tf2onnx ⟨"py", "/repo", some [], okRunner⟩ := by
  constructor <;> decide

/-- Claim C5 (amended): if the source directory does not exist or is not
readable, the run does not signal an error: it behaves exactly as for
an existing empty directory — it returns normally, invokes no
subprocess, and prints only the informational message before any job
would start. -/
theorem missing_dir_behaves_as_empty (env : Env)
    (h : env.sourceListing = none) :
    (bulk_convert_tf2onnx env).2 = none
      ∧ eventCmds (bulk_convert_tf2onnx env).1 = []
      ∧ bulk_convert_tf2onnx env
        = bulk_convert_tf2onnx ⟨env.sysExecutable, env.cwd, some [], env.run⟩ := by
  unfold bulk_convert_tf2onnx
  rw [h]
  exact ⟨rfl, rfl, rfl⟩

/-- A concrete environment whose source directory is absent. -/
def envC5 : Env := ⟨"py", "/data", none, okRunner⟩

theorem missing_dir_behaves_as_empty_witness :
    (bulk_convert_tf2onnx envC5).2 = none
      ∧ eventCmds (bulk_convert_tf2onnx envC5).1 = []
      ∧ bulk_convert_tf2onnx envC5
        = bulk_convert_tf2onnx ⟨"py", "/data", some [], okRunner⟩ :=
  missing_dir_behaves_as_empty envC5 rfl

/-- Claim C6: if the source directory is absent entirely, the run emits
"No .tflite files found in " followed by the directory's absolute path,
performs zero subprocess invocations, and returns normally. -/
theorem absent_dir_message (env : Env) (h : env.sourceListing = none) :
    bulk_convert_tf2onnx env
      = ([.print ("No .tflite files found in " ++ absoluteStr env.cwd sourceDir)],
         none) := by
  unfold bulk_convert_tf2onnx
  rw [h]
  rfl

/-- A concrete environment whose source directory is absent. -/
def envC6 : Env := ⟨"py", "/repo", none, okRunner⟩

theorem absent_dir_message_witness :
    bulk_convert_tf2onnx envC6
      = ([.print "No .tflite files found in /repo/tflite"], none) :=
  (absent_dir_message envC6 rfl).trans (by decide)

/-- Claim C7: when the source directory exists but none of its entries
matches the glob pattern, the run produces the informational "no files
found" message, invokes no subprocess, and returns normally with zero
jobs processed rather than signalling an error. -/
theorem no_matching_files_informational (env : Env) (entries : List String)
    (hl : env.sourceListing = some entries)
    (hnone : entries.filter matchesGlobTflite = []) :
    bulk_convert_tf2onnx env
      = ([.print ("No .tflite files found in " ++ absoluteStr env.cwd sourceDir)],
         none) := by
  unfold bulk_convert_tf2onnx
  rw [hl]
  have hg : globTflite (some entries) = [] := by
    simp [globTflite, hnone]
  rw [hg]
  rfl

/-- A directory holding entries, none matching `*.tflite`. -/
def envC7 : Env :=
  ⟨"py", "/proj", some ["README.md", "model.onnx", "tfliteX"], okRunner⟩

theorem no_matching_files_informational_witness :
    bulk_convert_tf2onnx envC7
      = ([.print "No .tflite files found in /proj/tflite"], none) :=
  (no_matching_files_informational envC7 ["README.md", "model.onnx", "tfliteX"]
    rfl (by decide)).trans (by decide)

/-- Claim C8: for every matched file, the external conversion tool is
invoked as a subprocess whose argument vector passes the source-format
flag `--tflite` followed by the source file path, `--output` followed
by the target file path, and `--opset` followed by the fixed opset
version 13 (the interpreter runs the module `tf2onnx.convert`). -/
theorem invocation_argument_vector (env : Env)
    (hok : ∀ c, ∃ r, env.run c = .ok r)
    (f : PurePath) (hf : f ∈ globTflite env.sourceListing) :
    Event.subprocessCall
        [env.sysExecutable, "-m", "tf2onnx.convert",
         "--tflite", pathStr f,
         "--output", pathStr (onnxFileFor f),
         "--opset", "13"]
      ∈ (bulk_convert_tf2onnx env).1 := by
  have hc : mkCmd env.sysExecutable f ∈ eventCmds (bulk_convert_tf2onnx env).1 := by
    rw [eventCmds_bulk env hok]
    exact List.mem_map_of_mem _ hf
  exact subprocessCall_mem_of_mem_eventCmds hc

/-- A concrete single-file environment. -/
def envC8 : Env := ⟨"/usr/bin/python3", "/work", some ["gesture.tflite"], okRunner⟩

theorem invocation_argument_vector_witness :
    Event.subprocessCall [envC8.sysExecutable, "-m", "tf2onnx.convert",
        "--tflite", pathStr (sourceDir.child "gesture.tflite"),
        "--output", pathStr (onnxFileFor (sourceDir.child "gesture.tflite")),
        "--opset", "13"]
      ∈ (bulk_convert_tf2onnx envC8).1 :=
  invocation_argument_vector envC8 (fun _ => ⟨⟨0, "", ""⟩, rfl⟩)
    (sourceDir.child "gesture.tflite") (by decide)

/-- Claim C9 counterexample: when the converter module is missing, the
subprocess (the interpreter) launches fine and exits non-zero, so the
run neither aborts nor emits anything distinguishable from a per-file
conversion failure: the whole trace is the ordinary progress notice,
the invocation, the ordinary "Error converting ..." notice and the
captured stderr — and the run ends normally.  The claim's demand of an
abort or a `ToolInvocationError` distinct from a per-file conversion
failure is therefore violated in this scenario (a diagnostic is still
printed, so the failure is not silent). -/
theorem missing_module_not_distinguished :
    bulk_convert_tf2onnx
        ⟨"/usr/bin/python3", "/work", some ["model.tflite"],
         fun _ => .ok ⟨1, "", "/usr/bin/python3: No module named tf2onnx\n"⟩⟩
      = ([.print "Converting model.tflite -> model.onnx...",
          .subprocessCall ["/usr/bin/python3", "-m", "tf2onnx.convert",
            "--tflite", "tflite/model.tflite", "--output", "model.onnx",
            "--opset", "13"],
          .print "Error converting model.tflite:",
          .print "/usr/bin/python3: No module named tf2onnx\n"],
         none) := by
  decide

/-- Claim C9 (amended): if the subprocess cannot be launched at all,
`subprocess.run` raises an `OSError` the script does not catch, so the
run aborts with that exception at the first invocation and attempts no
further job; if instead the interpreter starts but the converter module
is missing, the subprocess exits non-zero and the job is reported with
the ordinary per-file failure notice and the captured stderr, not a
distinguished `ToolInvocationError` — in neither case does the run
silently produce zero output with no diagnostic. -/
theorem launch_exception_aborts (env : Env) (n₁ n₂ : String) (e : String)
    (hl : env.sourceListing = some [n₁, n₂])
    (hm₁ : matchesGlobTflite n₁ = true)
    (hm₂ : matchesGlobTflite n₂ = true)
    (he : env.run (mkCmd env.sysExecutable (sourceDir.child n₁)) = .error e) :
    bulk_convert_tf2onnx env
      = ([convertingNotice (sourceDir.child n₁),
          .subprocessCall (mkCmd env.sysExecutable (sourceDir.child n₁))],
         some e) := by
  unfold bulk_convert_tf2onnx
  rw [hl]
  have hg : globTflite (some [n₁, n₂])
      = [sourceDir.child n₁, sourceDir.child n₂] := by
    simp [globTflite, List.filter_cons, hm₁, hm₂]
  rw [hg, if_neg (by simp)]
  simp only [convertLoop, he]

/-- An environment whose interpreter executable cannot be launched. -/
def envC9 : Env :=
  ⟨"py", "/w", some ["a.tflite", "b.tflite"],
   fun _ => .error "FileNotFoundError: [Errno 2] No such file or directory: 'py'"⟩

theorem launch_exception_aborts_witness :
    bulk_convert_tf2onnx envC9
      = ([convertingNotice (sourceDir.child "a.tflite"),
          .subprocessCall (mkCmd "py" (sourceDir.child "a.tflite"))],
         some "FileNotFoundError: [Errno 2] No such file or directory: 'py'") :=
  launch_exception_aborts envC9 "a.tflite" "b.tflite" _ rfl (by decide) (by decide)
    rfl

/-- Drop the captured stdout of a process result. -/
def stripStdout (r : ProcResult) : ProcResult := ⟨r.returncode, "", r.stderr⟩

/-- The loop's behaviour depends on the runner only through exit code,
stderr and the launch exception — never through stdout. -/
theorem convertLoop_stdout_irrelevant (exe cwd : String)
    (run₁ run₂ : List String → Except String ProcResult)
    (h : ∀ c, Except.map stripStdout (run₁ c) = Except.map stripStdout (run₂ c)) :
    ∀ fs : List PurePath,
      convertLoop exe cwd run₁ fs = convertLoop exe cwd run₂ fs := by
  intro fs
  induction fs with
  | nil => rfl
  | cons f fs ih =>
    have hc := h (mkCmd exe f)
    cases h1 : run₁ (mkCmd exe f) with
    | error e =>
      cases h2 : run₂ (mkCmd exe f) with
      | error e' =>
        rw [h1, h2] at hc
        simp only [Except.map] at hc
        obtain rfl : e = e' := by injection hc
        simp only [convertLoop, h1, h2]
      | ok r' =>
        rw [h1, h2] at hc
        simp [Except.map] at hc
    | ok r =>
      cases h2 : run₂ (mkCmd exe f) with
      | error e' =>
        rw [h1, h2] at hc
        simp [Except.map] at hc
      | ok r' =>
        rw [h1, h2] at hc
        simp only [Except.map] at hc
        have hs : stripStdout r = stripStdout r' := by injection hc
        have hrc : r.returncode = r'.returncode := by
          have hp := congrArg ProcResult.returncode hs
          exact hp
        have hse : r.stderr = r'.stderr := by
          have hp := congrArg ProcResult.stderr hs
          exact hp
        simp only [convertLoop, h1, h2, ih]
        unfold reportEvents
        rw [hrc, hse]

/-- Claim C10: the subprocess's captured standard output is never
emitted to the reporting sink: a run's whole outcome is unchanged under
any change to the stdout each invocation captures, so on success only
the success notice is printed and on failure only the error notice and
the captured stderr. -/
theorem stdout_never_reported (exe cwd : String)
    (listing : Option (List String))
    (run₁ run₂ : List String → Except String ProcResult)
    (h : ∀ c, Except.map stripStdout (run₁ c) = Except.map stripStdout (run₂ c)) :
    bulk_convert_tf2onnx ⟨exe, cwd, listing, run₁⟩
      = bulk_convert_tf2onnx ⟨exe, cwd, listing, run₂⟩ := by
  simp only [bulk_convert_tf2onnx]
  rw [convertLoop_stdout_irrelevant exe cwd run₁ run₂ h (globTflite listing)]

theorem stdout_never_reported_witness :
    bulk_convert_tf2onnx ⟨"py", "/w", some ["m.tflite"],
        fun _ => .ok ⟨0, "verbose tool chatter", ""⟩⟩
      = bulk_convert_tf2onnx ⟨"py", "/w", some ["m.tflite"],
        fun _ => .ok ⟨0, "", ""⟩⟩ :=
  stdout_never_reported "py" "/w" (some ["m.tflite"]) _ _ (fun _ => rfl)

end Tf2Onnx
